import Mathlib

/-!
Temporary schema resolution (`pkg/sql/catalog/descs/temporary_descriptors.go`).

A shallow embedding of `temporaryDescriptors.getSchemaByName` and
`temporaryDescriptors.getSchemaByID`, together with the session-data
collaborators they call, followed by the properties of the two resolvers.

Conventions of the embedding:

* `descpb.ID` has underlying type `uint32`, and the session data keys its
  mapping by `uint32`; the conversions `uint32(dbID)`, `uint32(schemaID)`,
  `descpb.ID(schemaID)` and `descpb.ID(dbID)` are therefore value preserving
  and are the identity on `ID`.
* a Go pointer or interface that may be `nil` is an `Option`;
* the `context.Context` argument carries no data the resolvers read and is
  dropped;
* the persistent namespace lookup `catalogkv.ResolveSchemaID` is an argument
  of `getSchemaByName`: a function from the transaction, codec, database id
  and name to the triple `(exists, schemaID, err)` it returns.
-/

namespace descs

/-- Descriptor identifiers (`descpb.ID`, a `uint32`). -/
abbrev ID := Nat

/-- The tenant codec (`keys.SQLCodec`), only passed through to the lookup. -/
abbrev SQLCodec := Nat

/-- A transaction handle (`*kv.Txn`), only passed through to the lookup. -/
abbrev Txn := Nat

/-- A non-nil Go `error` value. -/
abbrev Error := String

/-- Modelled from the spec: the constant `catconstants.PgTempSchemaName` is not
part of the source file; the spec calls it the reserved alias, the literal
name `pg_temp`. -/
def PgTempSchemaName : String := "pg_temp"

/-- Modelled from the spec: the temporary variant of `catalog.SchemaDescriptor`
built by `schemadesc.NewTemporarySchema`, which is not part of the source file;
the spec describes it as a value object with `name`, `schemaID` and
`parentDatabaseID`. -/
structure SchemaDescriptor where
  name : String
  schemaID : ID
  parentDatabaseID : ID
deriving DecidableEq, Repr

/-- Modelled from the spec: `schemadesc.NewTemporarySchema(name, id, parentDB)`
is not part of the source file; it synthesizes the descriptor from the three
values it is given. -/
def NewTemporarySchema (name : String) (id : ID) (parentDB : ID) : SchemaDescriptor :=
  SchemaDescriptor.mk name id parentDB

/-- Modelled from the spec: `sessiondata.SessionData` is not part of the source
file. A session frame holds `temporarySchemaByDatabase`, the mapping from
database identifier to the session's own temporary schema identifier (at most
one entry per database, which a partial function gives by construction), and
`temporarySchemaName`, the session's configured name for the temporary
namespace. -/
structure SessionData where
  temporarySchemaByDatabase : Nat → Option Nat
  temporarySchemaName : String

/-- Modelled from the spec: `sd.SearchPath.GetTemporarySchemaName()` is not
part of the source file; it reads the frame's `temporarySchemaName`. -/
def SessionData.GetTemporarySchemaName (sd : SessionData) : String :=
  sd.temporarySchemaName

/-- Modelled from the spec: `SessionData.GetTemporarySchemaIDForDb` is not part
of the source file; it is the lookup of `temporarySchemaByDatabase` by database
identifier, returning the identifier and whether an entry exists. -/
def SessionData.GetTemporarySchemaIDForDb (sd : SessionData) (dbID : Nat) : Nat × Bool :=
  match sd.temporarySchemaByDatabase dbID with
  | some schemaID => (schemaID, true)
  | none => (0, false)

/-- The search of a mapping `m` for an entry whose value equals `schemaID`,
visiting the databases in the order of the list. -/
def searchByValue (m : Nat → Option Nat) (schemaID : Nat) : List Nat → Nat × Bool
  | [] => (0, false)
  | dbID :: rest =>
    if m dbID = some schemaID then (dbID, true) else searchByValue m schemaID rest

/-- Modelled from the spec: `SessionData.MaybeGetDatabaseForTemporarySchemaID`
is not part of the source file; the spec has it search the frame's mapping for
an entry whose value equals `schemaID` and return the owning database. A
mapping carries no order of its entries, so the order in which one search
visits them, `visitOrder`, is an input of that search. -/
def SessionData.MaybeGetDatabaseForTemporarySchemaID (sd : SessionData)
    (visitOrder : List Nat) (schemaID : Nat) : Nat × Bool :=
  searchByValue sd.temporarySchemaByDatabase schemaID visitOrder

/-- A list is a visiting order of a mapping when it enumerates exactly the
databases that have an entry, each once. -/
def IsVisitOrder (m : Nat → Option Nat) (l : List Nat) : Prop :=
  l.Nodup ∧ ∀ k, k ∈ l ↔ (m k).isSome = true

/-- Modelled from the spec: `sessiondata.Stack` is not part of the source file;
it is an ordered sequence of frames. -/
structure Stack where
  stack : List SessionData

/-- Modelled from the spec: `Stack.Top()` is not part of the source file; it
returns the active frame, the last one pushed, or the absent indicator when
there is none. -/
def Stack.Top (s : Stack) : Option SessionData :=
  s.stack.getLast?

/-- The struct `temporaryDescriptors`. -/
structure temporaryDescriptors where
  codec : SQLCodec
  sessionDataStack : Option Stack

/-- The constructor `makeTemporaryDescriptors`. -/
def makeTemporaryDescriptors (codec : SQLCodec) (sessionDataStack : Option Stack) :
    temporaryDescriptors :=
  temporaryDescriptors.mk codec sessionDataStack

/-- The method `sessionData` returns the top element of the session data
stack, or nothing when the stack pointer is nil. -/
def temporaryDescriptors.sessionData (td : temporaryDescriptors) : Option SessionData :=
  match td.sessionDataStack with
  | none => none
  | some s => s.Top

/-- The type of the persistent namespace lookup `catalogkv.ResolveSchemaID`,
returning `(exists, schemaID, err)`. -/
abbrev Resolver := Txn → SQLCodec → ID → String → Bool × ID × Option Error

/-- The method `getSchemaByName`, returning
`(refuseFurtherLookup, descriptor, error)`. -/
def temporaryDescriptors.getSchemaByName (td : temporaryDescriptors)
    (ResolveSchemaID : Resolver) (txn : Txn) (dbID : ID) (schemaName : String) :
    Bool × Option SchemaDescriptor × Option Error :=
  let fromStore : Bool × Option SchemaDescriptor × Option Error :=
    match ResolveSchemaID txn td.codec dbID schemaName with
    | (found, schemaID, err) =>
      if !found || err.isSome then (true, none, err)
      else (true, some (NewTemporarySchema schemaName schemaID dbID), none)
  match td.sessionData with
  | some sd =>
    if schemaName = PgTempSchemaName ∨ schemaName = sd.GetTemporarySchemaName then
      match sd.GetTemporarySchemaIDForDb dbID with
      | (schemaID, true) =>
        (true, some (NewTemporarySchema sd.GetTemporarySchemaName schemaID dbID), none)
      | (_, false) => fromStore
    else fromStore
  | none => fromStore

/-- The method `getSchemaByID`; `visitOrder` is the order in which the search
of the frame's mapping visits its entries during this call. -/
def temporaryDescriptors.getSchemaByID (td : temporaryDescriptors)
    (visitOrder : List Nat) (schemaID : ID) : Option SchemaDescriptor :=
  match td.sessionData with
  | none => none
  | some sd =>
    match sd.MaybeGetDatabaseForTemporarySchemaID visitOrder schemaID with
    | (dbID, true) => some (NewTemporarySchema sd.GetTemporarySchemaName schemaID dbID)
    | (_, false) => none

/-! Vocabulary of the properties -/

/-- The session-local path of `getSchemaByName` yields a descriptor: there is
an active frame (the stack pointer is set and the stack has a top frame), the
name is the reserved alias or the frame's temporary-schema name, and the frame
has an entry for the database. -/
def sessionLocalHit (td : temporaryDescriptors) (dbID : ID) (schemaName : String) : Prop :=
  ∃ s sd, td.sessionDataStack = some s ∧ s.Top = some sd ∧
    (schemaName = PgTempSchemaName ∨ schemaName = sd.temporarySchemaName) ∧
    (sd.temporarySchemaByDatabase dbID).isSome = true

/-- A session frame used in examples: database 7 owns temporary schema
1500088, and the temporary-schema name is `pg_temp_1_1`. -/
def frame7 : SessionData :=
  SessionData.mk (fun k => if k = 7 then some 1500088 else none) "pg_temp_1_1"

/-- A session frame in which databases 1 and 2 both map to schema 5. -/
def frameShared : SessionData :=
  SessionData.mk (fun k => if k = 1 ∨ k = 2 then some 5 else none) "pg_temp_1_1"

/-- A resolver over a stack holding just the given frame. -/
def tdOf (sd : SessionData) : temporaryDescriptors :=
  makeTemporaryDescriptors 0 (some (Stack.mk [sd]))

/-- A persistent lookup that finds nothing and reports no error. -/
def lookupNothing : Resolver := fun _ _ _ _ => (false, 0, none)

/-- A persistent lookup that knows schema 42 in every database. -/
def lookupFound : Resolver := fun _ _ _ _ => (true, 42, none)

/-- A persistent lookup that fails, while also reporting an entry. -/
def lookupFails : Resolver := fun _ _ _ _ => (true, 42, some "boom")

/-- The session-local path of `getSchemaByName` yields no descriptor: there is
no active frame (the stack pointer is nil, or the stack has no top frame), or
the name is neither the reserved alias nor the top frame's temporary-schema
name, or the top frame has no entry for the database. -/
def sessionLocalMiss (td : temporaryDescriptors) (dbID : ID) (schemaName : String) : Prop :=
  td.sessionDataStack = none ∨
    (∃ s, td.sessionDataStack = some s ∧ s.Top = none) ∨
    ∃ s sd, td.sessionDataStack = some s ∧ s.Top = some sd ∧
      ((schemaName ≠ PgTempSchemaName ∧ schemaName ≠ sd.temporarySchemaName) ∨
        sd.temporarySchemaByDatabase dbID = none)

/-- A session frame with no temporary schema in any database. -/
def frameEmpty : SessionData :=
  SessionData.mk (fun _ => none) "pg_temp_2_2"

/-- A resolver over a stack of two frames: `frame7` below, `frameEmpty` on
top. -/
def tdNested : temporaryDescriptors :=
  makeTemporaryDescriptors 0 (some (Stack.mk [frame7, frameEmpty]))

/-- A resolver with the given codec and no session stack. -/
def tdNoSession (codec : SQLCodec) : temporaryDescriptors :=
  makeTemporaryDescriptors codec none

/-! State-passing forms. The receiver `td` (codec, session stack and the
frames it holds) is the state; each method returns its result together with
the receiver as the call leaves it. -/

/-- State-passing form of the method `sessionData`: it reads the stack pointer
and calls `Top()`, which the spec gives as free of side effects. -/
def temporaryDescriptors.sessionDataSt (td : temporaryDescriptors) :
    Option SessionData × temporaryDescriptors :=
  match td.sessionDataStack with
  | none => (none, td)
  | some s => (s.Top, td)

/-- State-passing form of the method `getSchemaByName`: the body assigns to no
field of the receiver, of the stack or of a frame, and the accessors it calls
are reads. -/
def temporaryDescriptors.getSchemaByNameSt (td : temporaryDescriptors)
    (ResolveSchemaID : Resolver) (txn : Txn) (dbID : ID) (schemaName : String) :
    (Bool × Option SchemaDescriptor × Option Error) × temporaryDescriptors :=
  let fromStore (td1 : temporaryDescriptors) :
      (Bool × Option SchemaDescriptor × Option Error) × temporaryDescriptors :=
    match ResolveSchemaID txn td1.codec dbID schemaName with
    | (found, schemaID, err) =>
      if !found || err.isSome then ((true, none, err), td1)
      else ((true, some (NewTemporarySchema schemaName schemaID dbID), none), td1)
  match td.sessionDataSt with
  | (some sd, td1) =>
    if schemaName = PgTempSchemaName ∨ schemaName = sd.GetTemporarySchemaName then
      match sd.GetTemporarySchemaIDForDb dbID with
      | (schemaID, true) =>
        ((true, some (NewTemporarySchema sd.GetTemporarySchemaName schemaID dbID), none), td1)
      | (_, false) => fromStore td1
    else fromStore td1
  | (none, td1) => fromStore td1

/-- State-passing form of the method `getSchemaByID`. -/
def temporaryDescriptors.getSchemaByIDSt (td : temporaryDescriptors)
    (visitOrder : List Nat) (schemaID : ID) : Option SchemaDescriptor × temporaryDescriptors :=
  match td.sessionDataSt with
  | (none, td1) => (none, td1)
  | (some sd, td1) =>
    match sd.MaybeGetDatabaseForTemporarySchemaID visitOrder schemaID with
    | (dbID, true) =>
      (some (NewTemporarySchema sd.GetTemporarySchemaName schemaID dbID), td1)
    | (_, false) => (none, td1)

/-! Shared lemmas -/

theorem sessionData_eq_some_iff (td : temporaryDescriptors) (sd : SessionData) :
    td.sessionData = some sd ↔ ∃ s, td.sessionDataStack = some s ∧ s.Top = some sd := by
  unfold temporaryDescriptors.sessionData
  cases td.sessionDataStack with
  | none => simp
  | some s => simp

theorem sessionData_eq_none_iff (td : temporaryDescriptors) :
    td.sessionData = none ↔
      td.sessionDataStack = none ∨ ∃ s, td.sessionDataStack = some s ∧ s.Top = none := by
  unfold temporaryDescriptors.sessionData
  cases td.sessionDataStack with
  | none => simp
  | some s => simp

theorem sessionLocalHit_iff (td : temporaryDescriptors) (dbID : ID) (schemaName : String) :
    sessionLocalHit td dbID schemaName ↔
      ∃ sd, td.sessionData = some sd ∧
        (schemaName = PgTempSchemaName ∨ schemaName = sd.temporarySchemaName) ∧
        (sd.temporarySchemaByDatabase dbID).isSome = true := by
  unfold sessionLocalHit
  constructor
  · rintro ⟨s, sd, hs, htop, h⟩
    exact ⟨sd, (sessionData_eq_some_iff td sd).mpr ⟨s, hs, htop⟩, h⟩
  · rintro ⟨sd, hsd, h⟩
    obtain ⟨s, hs, htop⟩ := (sessionData_eq_some_iff td sd).mp hsd
    exact ⟨s, sd, hs, htop, h⟩

theorem sessionLocalMiss_iff (td : temporaryDescriptors) (dbID : ID) (schemaName : String) :
    sessionLocalMiss td dbID schemaName ↔
      (td.sessionData = none ∨
        ∃ sd, td.sessionData = some sd ∧
          ((schemaName ≠ PgTempSchemaName ∧ schemaName ≠ sd.temporarySchemaName) ∨
            sd.temporarySchemaByDatabase dbID = none)) := by
  unfold sessionLocalMiss
  constructor
  · rintro (h | h | ⟨s, sd, hs, htop, h⟩)
    · exact Or.inl ((sessionData_eq_none_iff td).mpr (Or.inl h))
    · exact Or.inl ((sessionData_eq_none_iff td).mpr (Or.inr h))
    · exact Or.inr ⟨sd, (sessionData_eq_some_iff td sd).mpr ⟨s, hs, htop⟩, h⟩
  · rintro (h | ⟨sd, hsd, h⟩)
    · rcases (sessionData_eq_none_iff td).mp h with h | h
      · exact Or.inl h
      · exact Or.inr (Or.inl h)
    · obtain ⟨s, hs, htop⟩ := (sessionData_eq_some_iff td sd).mp hsd
      exact Or.inr (Or.inr ⟨s, sd, hs, htop, h⟩)

theorem sessionLocalMiss_iff_not_hit (td : temporaryDescriptors) (dbID : ID)
    (schemaName : String) :
    sessionLocalMiss td dbID schemaName ↔ ¬ sessionLocalHit td dbID schemaName := by
  rw [sessionLocalMiss_iff, sessionLocalHit_iff]
  cases hsd : td.sessionData with
  | none => simp
  | some sd =>
    cases hm : sd.temporarySchemaByDatabase dbID with
    | none => simp [hm]
    | some S =>
      simp only [Option.some.injEq, exists_eq_left', hm, Option.isSome_some, and_true,
        reduceCtorEq, or_false, false_or]
      tauto

theorem getSchemaByName_of_hit (td : temporaryDescriptors) (sd : SessionData)
    (r : Resolver) (txn : Txn) (dbID S : ID) (schemaName : String)
    (hsd : td.sessionData = some sd)
    (hn : schemaName = PgTempSchemaName ∨ schemaName = sd.temporarySchemaName)
    (hS : sd.temporarySchemaByDatabase dbID = some S) :
    td.getSchemaByName r txn dbID schemaName
      = (true, some (SchemaDescriptor.mk sd.temporarySchemaName S dbID), none) := by
  simp only [temporaryDescriptors.getSchemaByName, hsd,
    SessionData.GetTemporarySchemaName, SessionData.GetTemporarySchemaIDForDb, hS,
    NewTemporarySchema, if_pos hn]

theorem getSchemaByName_of_miss (td : temporaryDescriptors) (r : Resolver) (txn : Txn)
    (dbID : ID) (schemaName : String) (h : sessionLocalMiss td dbID schemaName) :
    td.getSchemaByName r txn dbID schemaName
      = if (r txn td.codec dbID schemaName).1 = true ∧
            (r txn td.codec dbID schemaName).2.2 = none
        then (true, some (SchemaDescriptor.mk schemaName
                (r txn td.codec dbID schemaName).2.1 dbID), none)
        else (true, none, (r txn td.codec dbID schemaName).2.2) := by
  have hstore : (match r txn td.codec dbID schemaName with
      | (found, schemaID, err) =>
        if (!found || err.isSome) = true then
          ((true, none, err) : Bool × Option SchemaDescriptor × Option Error)
        else (true, some (NewTemporarySchema schemaName schemaID dbID), none))
      = if (r txn td.codec dbID schemaName).1 = true ∧
            (r txn td.codec dbID schemaName).2.2 = none
        then (true, some (SchemaDescriptor.mk schemaName
                (r txn td.codec dbID schemaName).2.1 dbID), none)
        else (true, none, (r txn td.codec dbID schemaName).2.2) := by
    rcases r txn td.codec dbID schemaName with ⟨found, schemaID, err⟩
    cases found <;> cases err <;> simp [NewTemporarySchema]
  rcases (sessionLocalMiss_iff td dbID schemaName).mp h with h | ⟨sd, hsd, h⟩
  · simp only [temporaryDescriptors.getSchemaByName, h]
    exact hstore
  · simp only [temporaryDescriptors.getSchemaByName, hsd,
      SessionData.GetTemporarySchemaName, SessionData.GetTemporarySchemaIDForDb]
    rcases h with ⟨h1, h2⟩ | h
    · rw [if_neg (by tauto)]
      exact hstore
    · simp only [h]
      split
      · exact hstore
      · exact hstore

theorem searchByValue_found (m : Nat → Option Nat) (schemaID : Nat) (l : List Nat)
    (h : (searchByValue m schemaID l).2 = true) :
    m (searchByValue m schemaID l).1 = some schemaID ∧ (searchByValue m schemaID l).1 ∈ l := by
  induction l with
  | nil => simp [searchByValue] at h
  | cons k rest ih =>
    unfold searchByValue at h ⊢
    by_cases hk : m k = some schemaID
    · simp [hk]
    · simp only [hk, if_false] at h ⊢
      exact ⟨(ih h).1, List.mem_cons_of_mem _ (ih h).2⟩

theorem searchByValue_none_iff (m : Nat → Option Nat) (schemaID : Nat) (l : List Nat) :
    (searchByValue m schemaID l).2 = false ↔ ∀ k ∈ l, m k ≠ some schemaID := by
  induction l with
  | nil => simp [searchByValue]
  | cons k rest ih =>
    unfold searchByValue
    by_cases hk : m k = some schemaID
    · simp [hk]
    · simp [hk, ih]

theorem searchByValue_miss_iff_of_visitOrder (m : Nat → Option Nat) (schemaID : Nat)
    (l : List Nat) (hv : IsVisitOrder m l) :
    (searchByValue m schemaID l).2 = false ↔ ∀ D, m D ≠ some schemaID := by
  rw [searchByValue_none_iff]
  constructor
  · intro h D hD
    exact h D ((hv.2 D).mpr (by simp [hD])) hD
  · intro h D _
    exact h D

theorem getSchemaByID_of_frame (td : temporaryDescriptors) (sd : SessionData)
    (visitOrder : List Nat) (schemaID : ID) (hsd : td.sessionData = some sd) :
    td.getSchemaByID visitOrder schemaID
      = if (searchByValue sd.temporarySchemaByDatabase schemaID visitOrder).2 = true
        then some (SchemaDescriptor.mk sd.temporarySchemaName schemaID
              (searchByValue sd.temporarySchemaByDatabase schemaID visitOrder).1)
        else none := by
  simp only [temporaryDescriptors.getSchemaByID, hsd,
    SessionData.MaybeGetDatabaseForTemporarySchemaID, SessionData.GetTemporarySchemaName,
    NewTemporarySchema]
  rcases hs : searchByValue sd.temporarySchemaByDatabase schemaID visitOrder with ⟨db, b⟩
  cases b <;> simp

theorem getSchemaByID_eq_some_iff (td : temporaryDescriptors) (visitOrder : List Nat)
    (schemaID : ID) (d : SchemaDescriptor) :
    td.getSchemaByID visitOrder schemaID = some d ↔
      ∃ sd, td.sessionData = some sd ∧
        (searchByValue sd.temporarySchemaByDatabase schemaID visitOrder).2 = true ∧
        d = SchemaDescriptor.mk sd.temporarySchemaName schemaID
              (searchByValue sd.temporarySchemaByDatabase schemaID visitOrder).1 := by
  unfold temporaryDescriptors.getSchemaByID
  cases hsd : td.sessionData with
  | none => simp
  | some sd =>
    simp only [SessionData.MaybeGetDatabaseForTemporarySchemaID,
      SessionData.GetTemporarySchemaName, NewTemporarySchema, Option.some.injEq,
      exists_eq_left']
    rcases hs : searchByValue sd.temporarySchemaByDatabase schemaID visitOrder with ⟨db, b⟩
    cases b
    · simp
    · simp [eq_comm]

theorem getSchemaByID_eq_none_iff (td : temporaryDescriptors) (visitOrder : List Nat)
    (schemaID : ID) :
    td.getSchemaByID visitOrder schemaID = none ↔
      ∀ sd, td.sessionData = some sd →
        (searchByValue sd.temporarySchemaByDatabase schemaID visitOrder).2 = false := by
  unfold temporaryDescriptors.getSchemaByID
  cases hsd : td.sessionData with
  | none => simp
  | some sd =>
    simp only [SessionData.MaybeGetDatabaseForTemporarySchemaID, Option.some.injEq,
      forall_eq']
    rcases hs : searchByValue sd.temporarySchemaByDatabase schemaID visitOrder with ⟨db, b⟩
    cases b <;> simp

theorem isVisitOrder_frame7 : IsVisitOrder frame7.temporarySchemaByDatabase [7] := by
  refine ⟨by decide, fun k => ?_⟩
  by_cases hk : k = 7 <;> simp [frame7, hk]

theorem isVisitOrder_frameShared_12 :
    IsVisitOrder frameShared.temporarySchemaByDatabase [1, 2] := by
  refine ⟨by decide, fun k => ?_⟩
  by_cases h1 : k = 1 <;> by_cases h2 : k = 2 <;> simp [frameShared, h1, h2]

theorem isVisitOrder_frameShared_21 :
    IsVisitOrder frameShared.temporarySchemaByDatabase [2, 1] := by
  refine ⟨by decide, fun k => ?_⟩
  by_cases h1 : k = 1 <;> by_cases h2 : k = 2 <;> simp [frameShared, h1, h2]

theorem sessionData_of_stack (codec : SQLCodec) (s : Stack) :
    (temporaryDescriptors.mk codec (some s)).sessionData = s.Top := rfl

theorem Top_append_singleton (lower : List SessionData) (top : SessionData) :
    (Stack.mk (lower ++ [top])).Top = some top := by
  simp [Stack.Top]

theorem getSchemaByName_congr (td1 td2 : temporaryDescriptors) (r : Resolver) (txn : Txn)
    (dbID : ID) (schemaName : String) (hc : td1.codec = td2.codec)
    (hs : td1.sessionData = td2.sessionData) :
    td1.getSchemaByName r txn dbID schemaName = td2.getSchemaByName r txn dbID schemaName := by
  simp only [temporaryDescriptors.getSchemaByName, hc, hs]

theorem getSchemaByID_congr (td1 td2 : temporaryDescriptors) (visitOrder : List Nat)
    (schemaID : ID) (hs : td1.sessionData = td2.sessionData) :
    td1.getSchemaByID visitOrder schemaID = td2.getSchemaByID visitOrder schemaID := by
  simp only [temporaryDescriptors.getSchemaByID, hs]

theorem getSchemaByName_no_session (codec : SQLCodec) (r : Resolver) (txn : Txn)
    (dbID : ID) (schemaName : String) :
    (tdNoSession codec).getSchemaByName r txn dbID schemaName
      = if (r txn codec dbID schemaName).1 = true ∧ (r txn codec dbID schemaName).2.2 = none
        then (true, some (SchemaDescriptor.mk schemaName
                (r txn codec dbID schemaName).2.1 dbID), none)
        else (true, none, (r txn codec dbID schemaName).2.2) :=
  getSchemaByName_of_miss (tdNoSession codec) r txn dbID schemaName (Or.inl rfl)

/-! Properties of `getSchemaByName` and `getSchemaByID` -/

/-- C1: for every session stack (absent, empty or with a top frame), every
database id, every schema name and every outcome of the persistent lookup, the
first result of `getSchemaByName` (`refuseFurtherLookup`) is true. -/
theorem getSchemaByName_refuseFurtherLookup (td : temporaryDescriptors) (r : Resolver)
    (txn : Txn) (dbID : ID) (schemaName : String) :
    (td.getSchemaByName r txn dbID schemaName).1 = true := by
  by_cases h : sessionLocalHit td dbID schemaName
  · obtain ⟨sd, hsd, hn, hS⟩ := (sessionLocalHit_iff td dbID schemaName).mp h
    obtain ⟨S, hS⟩ := Option.isSome_iff_exists.mp hS
    rw [getSchemaByName_of_hit td sd r txn dbID S schemaName hsd hn hS]
  · rw [getSchemaByName_of_miss td r txn dbID schemaName
      ((sessionLocalMiss_iff_not_hit td dbID schemaName).mpr h)]
    split <;> rfl

/-- C2: when the top frame maps database `D` to temporary schema `S` and the
name is `pg_temp` or the frame's temporary-schema name, `getSchemaByName`
returns `(true, descriptor, nil)` with the frame's temporary-schema name, `S`
and `D`, whatever the persistent lookup would answer. -/
theorem getSchemaByName_session_hit (td : temporaryDescriptors) (sd : SessionData)
    (D S : ID) (schemaName : String)
    (hsd : td.sessionData = some sd)
    (hS : sd.temporarySchemaByDatabase D = some S)
    (hn : schemaName = "pg_temp" ∨ schemaName = sd.temporarySchemaName) :
    ∀ (r : Resolver) (txn : Txn),
      td.getSchemaByName r txn D schemaName
        = (true, some (SchemaDescriptor.mk sd.temporarySchemaName S D), none) :=
  fun r txn => getSchemaByName_of_hit td sd r txn D S schemaName hsd hn hS

/-- Witness for C2: the frame mapping 7 to 1500088, asked for `pg_temp`, once
with a lookup that knows another id and once with a lookup that fails. -/
theorem getSchemaByName_session_hit_witness :
    (tdOf frame7).getSchemaByName lookupFound 0 7 "pg_temp"
      = (true, some (SchemaDescriptor.mk "pg_temp_1_1" 1500088 7), none) ∧
    (tdOf frame7).getSchemaByName lookupFails 0 7 "pg_temp"
      = (true, some (SchemaDescriptor.mk "pg_temp_1_1" 1500088 7), none) :=
  ⟨getSchemaByName_session_hit (tdOf frame7) frame7 7 1500088 "pg_temp" rfl rfl (Or.inl rfl)
      lookupFound 0,
    getSchemaByName_session_hit (tdOf frame7) frame7 7 1500088 "pg_temp" rfl rfl (Or.inl rfl)
      lookupFails 0⟩

/-- C3: given a visiting order of the active frame's mapping, `getSchemaByID`
returns a descriptor if and only if there is an active top session frame (the
stack pointer is set and the stack has a top frame) and some database of that
frame's mapping has value `schemaID`; for an identifier that is no value of
the active frame's mapping it returns absent. The operation takes no
persistent lookup and has no error result. -/
theorem getSchemaByID_isSome_iff (td : temporaryDescriptors) (visitOrder : List Nat)
    (schemaID : ID)
    (hv : ∀ s sd, td.sessionDataStack = some s → s.Top = some sd →
      IsVisitOrder sd.temporarySchemaByDatabase visitOrder) :
    ((td.getSchemaByID visitOrder schemaID).isSome = true ↔
        ∃ s sd, td.sessionDataStack = some s ∧ s.Top = some sd ∧
          ∃ D, sd.temporarySchemaByDatabase D = some schemaID) ∧
    ((∀ s sd, td.sessionDataStack = some s → s.Top = some sd →
          ∀ D, sd.temporarySchemaByDatabase D ≠ some schemaID) →
        td.getSchemaByID visitOrder schemaID = none) := by
  have hact : ∀ sd, td.sessionData = some sd ↔
      ∃ s, td.sessionDataStack = some s ∧ s.Top = some sd := by
    intro sd
    unfold temporaryDescriptors.sessionData
    cases td.sessionDataStack <;> simp
  have key : ∀ sd, td.sessionData = some sd →
      ((searchByValue sd.temporarySchemaByDatabase schemaID visitOrder).2 = false ↔
        ∀ D, sd.temporarySchemaByDatabase D ≠ some schemaID) := by
    intro sd hsd
    obtain ⟨s, hs, htop⟩ := (hact sd).mp hsd
    exact searchByValue_miss_iff_of_visitOrder _ schemaID visitOrder (hv s sd hs htop)
  constructor
  · rw [Option.isSome_iff_exists]
    constructor
    · rintro ⟨d, hd⟩
      obtain ⟨sd, hsd, hb, -⟩ := (getSchemaByID_eq_some_iff td visitOrder schemaID d).mp hd
      obtain ⟨s, hs, htop⟩ := (hact sd).mp hsd
      exact ⟨s, sd, hs, htop, _, (searchByValue_found _ _ _ hb).1⟩
    · rintro ⟨s, sd, hs, htop, D, hD⟩
      have hsd : td.sessionData = some sd := (hact sd).mpr ⟨s, hs, htop⟩
      have hb : (searchByValue sd.temporarySchemaByDatabase schemaID visitOrder).2 = true := by
        by_contra hcon
        exact ((key sd hsd).mp (by simpa using hcon)) D hD
      exact ⟨_, (getSchemaByID_eq_some_iff td visitOrder schemaID _).mpr ⟨sd, hsd, hb, rfl⟩⟩
  · intro h
    rw [getSchemaByID_eq_none_iff]
    intro sd hsd
    obtain ⟨s, hs, htop⟩ := (hact sd).mp hsd
    exact (key sd hsd).mpr (h s sd hs htop)

/-- Witness for C3: on the stack holding the frame that maps 7 to 1500088,
identifier 1500088 resolves to a descriptor and identifier 9999 does not. -/
theorem getSchemaByID_isSome_iff_witness :
    ((tdOf frame7).getSchemaByID [7] 1500088).isSome = true ∧
    (tdOf frame7).getSchemaByID [7] 9999 = none ∧
    (tdOf frame7).getSchemaByID [7] 1500088
      = some (SchemaDescriptor.mk "pg_temp_1_1" 1500088 7) := by
  have hv : ∀ s sd, (tdOf frame7).sessionDataStack = some s → s.Top = some sd →
      IsVisitOrder sd.temporarySchemaByDatabase [7] := by
    intro s sd hs htop
    have hs2 : Stack.mk [frame7] = s := Option.some.inj hs
    subst hs2
    have hsd2 : frame7 = sd := Option.some.inj htop
    subst hsd2
    exact isVisitOrder_frame7
  refine ⟨(getSchemaByID_isSome_iff (tdOf frame7) [7] 1500088 hv).1.mpr
      ⟨Stack.mk [frame7], frame7, rfl, rfl, 7, rfl⟩,
    (getSchemaByID_isSome_iff (tdOf frame7) [7] 9999 hv).2 ?_, by decide⟩
  intro s sd hs htop D hD
  have hs2 : Stack.mk [frame7] = s := Option.some.inj hs
  subst hs2
  have hsd2 : frame7 = sd := Option.some.inj htop
  subst hsd2
  by_cases h7 : D = 7
  · simp [frame7, h7] at hD
  · simp [frame7, h7] at hD

/-- C4: `getSchemaByName` returns a non-nil error if and only if the
session-local path yields no descriptor and the persistent lookup returns an
error; the error returned is then exactly the lookup's error and the descriptor
is absent, also when the lookup reported `exists = true`. -/
theorem getSchemaByName_error_iff (td : temporaryDescriptors) (r : Resolver)
    (txn : Txn) (dbID : ID) (schemaName : String) :
    ((td.getSchemaByName r txn dbID schemaName).2.2 ≠ none ↔
        sessionLocalMiss td dbID schemaName ∧ (r txn td.codec dbID schemaName).2.2 ≠ none) ∧
    ((td.getSchemaByName r txn dbID schemaName).2.2 ≠ none →
        (td.getSchemaByName r txn dbID schemaName).2.2 = (r txn td.codec dbID schemaName).2.2 ∧
        (td.getSchemaByName r txn dbID schemaName).2.1 = none) := by
  have hact : ∀ sd, td.sessionData = some sd ↔
      ∃ s, td.sessionDataStack = some s ∧ s.Top = some sd := by
    intro sd
    unfold temporaryDescriptors.sessionData
    cases td.sessionDataStack <;> simp
  by_cases h : sessionLocalHit td dbID schemaName
  · have hmiss : ¬ sessionLocalMiss td dbID schemaName := by
      rw [sessionLocalMiss_iff_not_hit]; exact not_not.mpr h
    obtain ⟨s, sd, hs, htop, hn, hS⟩ := h
    have hsd : td.sessionData = some sd := (hact sd).mpr ⟨s, hs, htop⟩
    obtain ⟨S, hS⟩ := Option.isSome_iff_exists.mp hS
    rw [getSchemaByName_of_hit td sd r txn dbID S schemaName hsd hn hS]
    simp [hmiss]
  · have hmiss := (sessionLocalMiss_iff_not_hit td dbID schemaName).mpr h
    rw [getSchemaByName_of_miss td r txn dbID schemaName hmiss]
    by_cases hc : (r txn td.codec dbID schemaName).1 = true ∧
        (r txn td.codec dbID schemaName).2.2 = none
    · simp [hc, hmiss]
    · rw [if_neg hc]
      simp [hmiss]

/-- C5: when the top frame has no temporary schema registered for database `D`,
`getSchemaByName` for `pg_temp` is decided by the persistent lookup for
`(D, "pg_temp")`: it depends on the lookup through that one answer only, a found
entry becomes the descriptor, and not-found with no error gives
`(true, absent, nil)`. -/
theorem getSchemaByName_pg_temp_falls_back (td : temporaryDescriptors) (sd : SessionData)
    (r : Resolver) (txn : Txn) (D : ID)
    (hsd : td.sessionData = some sd)
    (hD : sd.temporarySchemaByDatabase D = none) :
    (∀ r2 : Resolver, r2 txn td.codec D "pg_temp" = r txn td.codec D "pg_temp" →
        td.getSchemaByName r2 txn D "pg_temp" = td.getSchemaByName r txn D "pg_temp") ∧
    (∀ id, r txn td.codec D "pg_temp" = (true, id, none) →
        td.getSchemaByName r txn D "pg_temp"
          = (true, some (SchemaDescriptor.mk "pg_temp" id D), none)) ∧
    (∀ id, r txn td.codec D "pg_temp" = (false, id, none) →
        td.getSchemaByName r txn D "pg_temp" = (true, none, none)) := by
  have hmiss : sessionLocalMiss td D "pg_temp" :=
    (sessionLocalMiss_iff td D "pg_temp").mpr (Or.inr ⟨sd, hsd, Or.inr hD⟩)
  refine ⟨fun r2 h2 => ?_, fun id hid => ?_, fun id hid => ?_⟩
  · rw [getSchemaByName_of_miss td r2 txn D "pg_temp" hmiss,
      getSchemaByName_of_miss td r txn D "pg_temp" hmiss, h2]
  · rw [getSchemaByName_of_miss td r txn D "pg_temp" hmiss, hid]
    simp
  · rw [getSchemaByName_of_miss td r txn D "pg_temp" hmiss, hid]
    simp

/-- Witness for C5: the frame mapping only database 7, asked for `pg_temp` in
database 8, with a lookup that finds nothing. -/
theorem getSchemaByName_pg_temp_falls_back_witness :
    (tdOf frame7).getSchemaByName lookupNothing 0 8 "pg_temp" = (true, none, none) :=
  (getSchemaByName_pg_temp_falls_back (tdOf frame7) frame7 lookupNothing 0 8 rfl rfl).2.2
    0 rfl

/-- C6: whenever the session-local path yields no descriptor and the persistent
lookup for `(dbID, schemaName)` returns `(true, id, nil)`, the result is
`(true, descriptor, nil)` with the requested name as passed in, the id the
lookup returned and `dbID` as parent. -/
theorem getSchemaByName_store_found (td : temporaryDescriptors) (r : Resolver)
    (txn : Txn) (dbID id : ID) (schemaName : String)
    (hmiss : sessionLocalMiss td dbID schemaName)
    (hr : r txn td.codec dbID schemaName = (true, id, none)) :
    td.getSchemaByName r txn dbID schemaName
      = (true, some (SchemaDescriptor.mk schemaName id dbID), none) := by
  rw [getSchemaByName_of_miss td r txn dbID schemaName hmiss, hr]
  simp

/-- Witness for C6: `pg_temp` requested in database 8, where the frame has no
entry; the descriptor carries the name `pg_temp`, not `pg_temp_1_1`. -/
theorem getSchemaByName_store_found_witness :
    sessionLocalMiss (tdOf frame7) 8 "pg_temp" ∧
    (tdOf frame7).getSchemaByName lookupFound 0 8 "pg_temp"
      = (true, some (SchemaDescriptor.mk "pg_temp" 42 8), none) :=
  ⟨Or.inr (Or.inr ⟨Stack.mk [frame7], frame7, rfl, rfl, Or.inr rfl⟩),
    getSchemaByName_store_found (tdOf frame7) lookupFound 0 8 42 "pg_temp"
      (Or.inr (Or.inr ⟨Stack.mk [frame7], frame7, rfl, rfl, Or.inr rfl⟩)) rfl⟩

/-- C7: whenever `getSchemaByID` returns a descriptor, it has the active
frame's temporary-schema name, the `schemaID` passed in, and as parent a
database whose entry in the active frame's mapping equals `schemaID`. -/
theorem getSchemaByID_descriptor_fields (td : temporaryDescriptors) (visitOrder : List Nat)
    (schemaID : ID) (d : SchemaDescriptor)
    (h : td.getSchemaByID visitOrder schemaID = some d) :
    ∃ sd, td.sessionData = some sd ∧
      d.name = sd.temporarySchemaName ∧
      d.schemaID = schemaID ∧
      sd.temporarySchemaByDatabase d.parentDatabaseID = some schemaID := by
  obtain ⟨sd, hsd, hb, hd⟩ := (getSchemaByID_eq_some_iff td visitOrder schemaID d).mp h
  subst hd
  exact ⟨sd, hsd, rfl, rfl, (searchByValue_found _ _ _ hb).1⟩

/-- Witness for C7: identifier 1500088 in the frame mapping 7 to 1500088. -/
theorem getSchemaByID_descriptor_fields_witness :
    ∃ sd, (tdOf frame7).sessionData = some sd ∧
      (SchemaDescriptor.mk "pg_temp_1_1" 1500088 7).name = sd.temporarySchemaName ∧
      (SchemaDescriptor.mk "pg_temp_1_1" 1500088 7).schemaID = 1500088 ∧
      sd.temporarySchemaByDatabase (SchemaDescriptor.mk "pg_temp_1_1" 1500088 7).parentDatabaseID
        = some 1500088 :=
  getSchemaByID_descriptor_fields (tdOf frame7) [7] 1500088
    (SchemaDescriptor.mk "pg_temp_1_1" 1500088 7) (by decide)

/-- Witness for C4, with a failing lookup that also reports an entry. In
database 8, where the frame has no entry, the error comes back unchanged and
no descriptor is returned; in database 7, where the session-local path hits,
no error is returned. -/
theorem getSchemaByName_error_iff_witness :
    (((tdOf frame7).getSchemaByName lookupFails 0 8 "pg_temp").2.2 = some "boom" ∧
      ((tdOf frame7).getSchemaByName lookupFails 0 8 "pg_temp").2.1 = none) ∧
    ((tdOf frame7).getSchemaByName lookupFails 0 7 "pg_temp").2.2 = none ∧
    (tdOf frame7).getSchemaByName lookupFails 0 7 "pg_temp"
      = (true, some (SchemaDescriptor.mk "pg_temp_1_1" 1500088 7), none) := by
  have hmiss8 : sessionLocalMiss (tdOf frame7) 8 "pg_temp" :=
    Or.inr (Or.inr ⟨Stack.mk [frame7], frame7, rfl, rfl, Or.inr rfl⟩)
  have hhit7 : ¬ sessionLocalMiss (tdOf frame7) 7 "pg_temp" := by
    rintro (h | ⟨s, hs, htop⟩ | ⟨s, sd, hs, htop, h⟩)
    · exact Option.noConfusion h
    · have hs2 : Stack.mk [frame7] = s := Option.some.inj hs
      subst hs2
      exact Option.noConfusion htop
    · have hs2 : Stack.mk [frame7] = s := Option.some.inj hs
      subst hs2
      have hsd2 : frame7 = sd := Option.some.inj htop
      subst hsd2
      rcases h with ⟨h1, -⟩ | h
      · exact h1 rfl
      · exact Option.noConfusion h
  have h8 := getSchemaByName_error_iff (tdOf frame7) lookupFails 0 8 "pg_temp"
  have h7 := getSchemaByName_error_iff (tdOf frame7) lookupFails 0 7 "pg_temp"
  have e8 : ((tdOf frame7).getSchemaByName lookupFails 0 8 "pg_temp").2.2 ≠ none :=
    h8.1.mpr ⟨hmiss8, by decide⟩
  exact ⟨h8.2 e8, Classical.not_not.mp (fun e7 => hhit7 (h7.1.mp e7).1), by decide⟩

/-- C8: with no active session (the stack is nil, or it has no top frame),
`getSchemaByID` returns absent for every schema id, and `getSchemaByName` is
decided by the persistent lookup alone: `(true, absent, err)` when the lookup
reports not-found or an error, and `(true, descriptor, nil)` built from the
requested name, the looked-up id and `dbID` when it reports found. -/
theorem no_active_session (td : temporaryDescriptors)
    (hno : td.sessionDataStack = none ∨
      ∃ s, td.sessionDataStack = some s ∧ s.Top = none) :
    (∀ (visitOrder : List Nat) (schemaID : ID), td.getSchemaByID visitOrder schemaID = none) ∧
    (∀ (r : Resolver) (txn : Txn) (dbID : ID) (schemaName : String),
      (((r txn td.codec dbID schemaName).1 = false ∨
            (r txn td.codec dbID schemaName).2.2 ≠ none) →
          td.getSchemaByName r txn dbID schemaName
            = (true, none, (r txn td.codec dbID schemaName).2.2)) ∧
      (∀ id, r txn td.codec dbID schemaName = (true, id, none) →
          td.getSchemaByName r txn dbID schemaName
            = (true, some (SchemaDescriptor.mk schemaName id dbID), none))) := by
  have hsd : td.sessionData = none := by
    rcases hno with h | ⟨s, hs, htop⟩
    · simp [temporaryDescriptors.sessionData, h]
    · simp [temporaryDescriptors.sessionData, hs, htop]
  refine ⟨fun visitOrder schemaID => ?_, fun r txn dbID schemaName => ⟨fun h => ?_, fun id hid => ?_⟩⟩
  · simp [temporaryDescriptors.getSchemaByID, hsd]
  · rw [getSchemaByName_of_miss td r txn dbID schemaName ((sessionLocalMiss_iff td dbID schemaName).mpr (Or.inl hsd))]
    have hc : ¬ ((r txn td.codec dbID schemaName).1 = true ∧
        (r txn td.codec dbID schemaName).2.2 = none) := by
      rintro ⟨h1, h2⟩
      rcases h with h | h
      · simp [h1] at h
      · exact h h2
    rw [if_neg hc]
  · rw [getSchemaByName_of_miss td r txn dbID schemaName ((sessionLocalMiss_iff td dbID schemaName).mpr (Or.inl hsd)), hid]
    simp

/-- Witness for C8: a resolver with an empty stack, asked for `pg_temp`. -/
theorem no_active_session_witness :
    (makeTemporaryDescriptors 0 (some (Stack.mk []))).getSchemaByID [] 1500088 = none ∧
    (makeTemporaryDescriptors 0 (some (Stack.mk []))).getSchemaByName lookupFound 0 7 "pg_temp"
      = (true, some (SchemaDescriptor.mk "pg_temp" 42 7), none) ∧
    (makeTemporaryDescriptors 0 none).getSchemaByName lookupFails 0 7 "pg_temp"
      = (true, none, some "boom") :=
  ⟨(no_active_session (makeTemporaryDescriptors 0 (some (Stack.mk [])))
      (Or.inr ⟨Stack.mk [], rfl, rfl⟩)).1 [] 1500088,
   ((no_active_session (makeTemporaryDescriptors 0 (some (Stack.mk [])))
      (Or.inr ⟨Stack.mk [], rfl, rfl⟩)).2 lookupFound 0 7 "pg_temp").2 42 rfl,
   ((no_active_session (makeTemporaryDescriptors 0 none) (Or.inl rfl)).2
      lookupFails 0 7 "pg_temp").1 (Or.inr (by decide))⟩

/-- C9, as stated, fails: in a frame where databases 1 and 2 both map to schema
5, whichever database the search by id meets first, `getSchemaByID 5` differs
from `getSchemaByName` for the other database and the frame's temporary-schema
name. -/
theorem getSchemaByID_shared_schema_mismatch :
    frameShared.temporarySchemaByDatabase 1 = some 5 ∧
    frameShared.temporarySchemaByDatabase 2 = some 5 ∧
    IsVisitOrder frameShared.temporarySchemaByDatabase [1, 2] ∧
    IsVisitOrder frameShared.temporarySchemaByDatabase [2, 1] ∧
    (tdOf frameShared).getSchemaByID [1, 2] 5
      = some (SchemaDescriptor.mk "pg_temp_1_1" 5 1) ∧
    (tdOf frameShared).getSchemaByID [2, 1] 5
      = some (SchemaDescriptor.mk "pg_temp_1_1" 5 2) ∧
    (tdOf frameShared).getSchemaByName lookupNothing 0 1 "pg_temp_1_1"
      = (true, some (SchemaDescriptor.mk "pg_temp_1_1" 5 1), none) ∧
    (tdOf frameShared).getSchemaByName lookupNothing 0 2 "pg_temp_1_1"
      = (true, some (SchemaDescriptor.mk "pg_temp_1_1" 5 2), none) ∧
    (tdOf frameShared).getSchemaByID [1, 2] 5
      ≠ ((tdOf frameShared).getSchemaByName lookupNothing 0 2 "pg_temp_1_1").2.1 ∧
    (tdOf frameShared).getSchemaByID [2, 1] 5
      ≠ ((tdOf frameShared).getSchemaByName lookupNothing 0 1 "pg_temp_1_1").2.1 :=
  ⟨rfl, rfl, isVisitOrder_frameShared_12, isVisitOrder_frameShared_21,
    by decide, by decide, by decide, by decide, by decide, by decide⟩

/-- C9, amended: for every session frame whose mapping sends database `D` to
temporary schema id `S`, with `D` the only database of the frame mapped to `S`,
and whose temporary-schema name is `n`, `getSchemaByID S` returns the same
descriptor that `getSchemaByName D n` returns, namely `n`, `S`, `D`. -/
theorem getSchemaByID_agrees_with_getSchemaByName (td : temporaryDescriptors)
    (sd : SessionData) (visitOrder : List Nat) (r : Resolver) (txn : Txn) (D S : ID)
    (hsd : td.sessionData = some sd)
    (hv : IsVisitOrder sd.temporarySchemaByDatabase visitOrder)
    (hS : sd.temporarySchemaByDatabase D = some S)
    (honly : ∀ D2, sd.temporarySchemaByDatabase D2 = some S → D2 = D) :
    td.getSchemaByID visitOrder S = some (SchemaDescriptor.mk sd.temporarySchemaName S D) ∧
    td.getSchemaByName r txn D sd.temporarySchemaName
      = (true, some (SchemaDescriptor.mk sd.temporarySchemaName S D), none) ∧
    td.getSchemaByID visitOrder S
      = (td.getSchemaByName r txn D sd.temporarySchemaName).2.1 := by
  have hb : (searchByValue sd.temporarySchemaByDatabase S visitOrder).2 = true := by
    by_contra hcon
    exact ((searchByValue_miss_iff_of_visitOrder _ S visitOrder hv).mp
      (by simpa using hcon)) D hS
  have hdb : (searchByValue sd.temporarySchemaByDatabase S visitOrder).1 = D :=
    honly _ (searchByValue_found _ _ _ hb).1
  have hid : td.getSchemaByID visitOrder S
      = some (SchemaDescriptor.mk sd.temporarySchemaName S D) := by
    rw [getSchemaByID_of_frame td sd visitOrder S hsd, if_pos hb, hdb]
  have hname := getSchemaByName_of_hit td sd r txn D S sd.temporarySchemaName hsd
    (Or.inr rfl) hS
  exact ⟨hid, hname, by rw [hid, hname]⟩

/-- Witness for C9: the frame mapping 7 to 1500088 with name `pg_temp_1_1`;
identifier 9999 is absent. -/
theorem getSchemaByID_agrees_with_getSchemaByName_witness :
    ((tdOf frame7).getSchemaByID [7] 1500088
        = some (SchemaDescriptor.mk "pg_temp_1_1" 1500088 7) ∧
      (tdOf frame7).getSchemaByName lookupNothing 0 7 "pg_temp_1_1"
        = (true, some (SchemaDescriptor.mk "pg_temp_1_1" 1500088 7), none) ∧
      (tdOf frame7).getSchemaByID [7] 1500088
        = ((tdOf frame7).getSchemaByName lookupNothing 0 7 "pg_temp_1_1").2.1) ∧
    (tdOf frame7).getSchemaByID [7] 9999 = none :=
  ⟨getSchemaByID_agrees_with_getSchemaByName (tdOf frame7) frame7 [7] lookupNothing 0 7
      1500088 rfl isVisitOrder_frame7 rfl
      (fun D2 h => by
        by_cases h7 : D2 = 7
        · exact h7
        · simp [frame7, h7] at h),
    by decide⟩

/-- C11: only the top frame of the session stack is consulted: two stacks with
the same top frame give identical results of `getSchemaByName` and
`getSchemaByID` for every input; frames below the top one have no influence,
so a temporary schema registered for a database only in a lower frame is not
returned by the session-local path of either operation. -/
theorem only_top_frame_consulted (codec : SQLCodec) (s1 s2 : Stack)
    (h : s1.Top = s2.Top) :
    (∀ (r : Resolver) (txn : Txn) (dbID : ID) (schemaName : String),
      (temporaryDescriptors.mk codec (some s1)).getSchemaByName r txn dbID schemaName
        = (temporaryDescriptors.mk codec (some s2)).getSchemaByName r txn dbID schemaName) ∧
    (∀ (visitOrder : List Nat) (schemaID : ID),
      (temporaryDescriptors.mk codec (some s1)).getSchemaByID visitOrder schemaID
        = (temporaryDescriptors.mk codec (some s2)).getSchemaByID visitOrder schemaID) ∧
    (∀ (lower : List SessionData) (top : SessionData) (r : Resolver) (txn : Txn) (D : ID)
        (schemaName : String), top.temporarySchemaByDatabase D = none →
      (temporaryDescriptors.mk codec (some (Stack.mk (lower ++ [top])))).getSchemaByName
          r txn D schemaName
        = (tdNoSession codec).getSchemaByName r txn D schemaName) ∧
    (∀ (lower : List SessionData) (top : SessionData) (visitOrder : List Nat) (S : ID),
      (∀ D, top.temporarySchemaByDatabase D ≠ some S) →
      (temporaryDescriptors.mk codec (some (Stack.mk (lower ++ [top])))).getSchemaByID
          visitOrder S = none) := by
  have hs : (temporaryDescriptors.mk codec (some s1)).sessionData
      = (temporaryDescriptors.mk codec (some s2)).sessionData := by
    rw [sessionData_of_stack, sessionData_of_stack, h]
  refine ⟨fun r txn dbID schemaName => getSchemaByName_congr _ _ r txn dbID schemaName rfl hs,
    fun visitOrder schemaID => getSchemaByID_congr _ _ visitOrder schemaID hs,
    fun lower top r txn D schemaName hD => ?_, fun lower top visitOrder S hS => ?_⟩
  · have htop : (temporaryDescriptors.mk codec (some (Stack.mk (lower ++ [top])))).sessionData
        = some top := by
      rw [sessionData_of_stack, Top_append_singleton]
    rw [getSchemaByName_of_miss _ r txn D schemaName
        ((sessionLocalMiss_iff _ D schemaName).mpr (Or.inr ⟨top, htop, Or.inr hD⟩)),
      getSchemaByName_no_session]
  · have htop : (temporaryDescriptors.mk codec (some (Stack.mk (lower ++ [top])))).sessionData
        = some top := by
      rw [sessionData_of_stack, Top_append_singleton]
    rw [getSchemaByID_of_frame _ top visitOrder S htop]
    have hf : (searchByValue top.temporarySchemaByDatabase S visitOrder).2 = false :=
      (searchByValue_none_iff _ S visitOrder).mpr (fun k _ => hS k)
    simp [hf]

/-- Witness for C11: the stacks `[frame7, frameEmpty]` and `[frameEmpty]` have
the same top frame; database 7 and schema 1500088, registered only in the lower
frame, are not resolved from the session. -/
theorem only_top_frame_consulted_witness :
    tdNested.getSchemaByName lookupNothing 0 7 "pg_temp"
      = (tdOf frameEmpty).getSchemaByName lookupNothing 0 7 "pg_temp" ∧
    tdNested.getSchemaByName lookupNothing 0 7 "pg_temp" = (true, none, none) ∧
    tdNested.getSchemaByID [7] 1500088 = (tdOf frameEmpty).getSchemaByID [7] 1500088 ∧
    tdNested.getSchemaByID [7] 1500088 = none :=
  have h := only_top_frame_consulted 0 (Stack.mk [frame7, frameEmpty]) (Stack.mk [frameEmpty]) rfl
  ⟨h.1 lookupNothing 0 7 "pg_temp", by decide, h.2.1 [7] 1500088,
    h.2.2.2 [frame7] frameEmpty [7] 1500088 (fun _ hD => Option.noConfusion hD)⟩

/-- C12: for an active frame and a schema name that is neither `pg_temp` nor the
frame's temporary-schema name, `getSchemaByName` does not depend on the frame's
mapping: its result equals that of the same call with no active session, and
that of the same call on any frame with another mapping. -/
theorem getSchemaByName_other_name (td : temporaryDescriptors) (sd : SessionData)
    (r : Resolver) (txn : Txn) (dbID : ID) (schemaName : String)
    (hsd : td.sessionData = some sd)
    (h1 : schemaName ≠ "pg_temp")
    (h2 : schemaName ≠ sd.temporarySchemaName) :
    td.getSchemaByName r txn dbID schemaName
      = (tdNoSession td.codec).getSchemaByName r txn dbID schemaName ∧
    (∀ (td2 : temporaryDescriptors) (m : Nat → Option Nat), td2.codec = td.codec →
      td2.sessionData = some (SessionData.mk m sd.temporarySchemaName) →
      td2.getSchemaByName r txn dbID schemaName = td.getSchemaByName r txn dbID schemaName) := by
  have hmiss : sessionLocalMiss td dbID schemaName :=
    (sessionLocalMiss_iff td dbID schemaName).mpr (Or.inr ⟨sd, hsd, Or.inl ⟨h1, h2⟩⟩)
  have hnone : td.getSchemaByName r txn dbID schemaName
      = (tdNoSession td.codec).getSchemaByName r txn dbID schemaName := by
    rw [getSchemaByName_of_miss td r txn dbID schemaName hmiss, getSchemaByName_no_session]
  refine ⟨hnone, fun td2 m hc hsd2 => ?_⟩
  have hmiss2 : sessionLocalMiss td2 dbID schemaName :=
    (sessionLocalMiss_iff td2 dbID schemaName).mpr
      (Or.inr ⟨SessionData.mk m sd.temporarySchemaName, hsd2, Or.inl ⟨h1, h2⟩⟩)
  rw [getSchemaByName_of_miss td2 r txn dbID schemaName hmiss2,
    getSchemaByName_of_miss td r txn dbID schemaName hmiss, hc]

/-- Witness for C12: the name `pg_temp_9_9` in database 7, for which the frame
has a temporary schema registered; the answer comes from the lookup. -/
theorem getSchemaByName_other_name_witness :
    (tdOf frame7).getSchemaByName lookupFound 0 7 "pg_temp_9_9"
      = (tdNoSession 0).getSchemaByName lookupFound 0 7 "pg_temp_9_9" ∧
    (tdOf frame7).getSchemaByName lookupFound 0 7 "pg_temp_9_9"
      = (true, some (SchemaDescriptor.mk "pg_temp_9_9" 42 7), none) :=
  ⟨(getSchemaByName_other_name (tdOf frame7) frame7 lookupFound 0 7 "pg_temp_9_9" rfl
      (by decide) (by decide)).1, by decide⟩

/-- C13: if `getSchemaByID S` returns a descriptor `d` with parent database `D`,
then `getSchemaByName D "pg_temp"` and `getSchemaByName D n`, with `n` the
frame's temporary-schema name, both return `(true, d, nil)`, for every
behaviour of the persistent lookup. -/
theorem getSchemaByName_of_getSchemaByID (td : temporaryDescriptors) (visitOrder : List Nat)
    (S : ID) (d : SchemaDescriptor)
    (h : td.getSchemaByID visitOrder S = some d) :
    ∃ sd, td.sessionData = some sd ∧
      ∀ (r : Resolver) (txn : Txn),
        td.getSchemaByName r txn d.parentDatabaseID "pg_temp" = (true, some d, none) ∧
        td.getSchemaByName r txn d.parentDatabaseID sd.temporarySchemaName
          = (true, some d, none) := by
  obtain ⟨sd, hsd, hb, hd⟩ := (getSchemaByID_eq_some_iff td visitOrder S d).mp h
  have hS := (searchByValue_found _ _ _ hb).1
  subst hd
  exact ⟨sd, hsd, fun r txn =>
    ⟨getSchemaByName_of_hit td sd r txn _ S "pg_temp" hsd (Or.inl rfl) hS,
      getSchemaByName_of_hit td sd r txn _ S sd.temporarySchemaName hsd (Or.inr rfl) hS⟩⟩

/-- Witness for C13: in the frame where databases 1 and 2 both map to schema 5,
the search by id visiting database 2 first returns parent 2, and resolution by
name in database 2, under a failing lookup, returns that same descriptor. -/
theorem getSchemaByName_of_getSchemaByID_witness :
    (tdOf frameShared).getSchemaByID [2, 1] 5 = some (SchemaDescriptor.mk "pg_temp_1_1" 5 2) ∧
    (tdOf frameShared).getSchemaByName lookupFails 0 2 "pg_temp"
      = (true, some (SchemaDescriptor.mk "pg_temp_1_1" 5 2), none) ∧
    (tdOf frameShared).getSchemaByName lookupFails 0 2 "pg_temp_1_1"
      = (true, some (SchemaDescriptor.mk "pg_temp_1_1" 5 2), none) := by
  obtain ⟨sd, hsd, h⟩ := getSchemaByName_of_getSchemaByID (tdOf frameShared) [2, 1] 5
    (SchemaDescriptor.mk "pg_temp_1_1" 5 2) (by decide)
  have hsd2 : frameShared = sd := Option.some.inj hsd
  subst hsd2
  exact ⟨by decide, (h lookupFails 0).1, (h lookupFails 0).2⟩

/-- C14: `getSchemaByName` never returns both a descriptor and a non-nil error;
it returns a descriptor if and only if the session-local path hits or the
persistent lookup returns `exists = true` with a nil error; a returned
descriptor has `parentDatabaseID` equal to the `dbID` argument. -/
theorem getSchemaByName_descriptor_iff (td : temporaryDescriptors) (r : Resolver)
    (txn : Txn) (dbID : ID) (schemaName : String) :
    ¬ ((td.getSchemaByName r txn dbID schemaName).2.1 ≠ none ∧
        (td.getSchemaByName r txn dbID schemaName).2.2 ≠ none) ∧
    ((td.getSchemaByName r txn dbID schemaName).2.1 ≠ none ↔
        sessionLocalHit td dbID schemaName ∨
          ((r txn td.codec dbID schemaName).1 = true ∧
            (r txn td.codec dbID schemaName).2.2 = none)) ∧
    (∀ d, (td.getSchemaByName r txn dbID schemaName).2.1 = some d →
        d.parentDatabaseID = dbID) := by
  have hact : ∀ sd, td.sessionData = some sd ↔
      ∃ s, td.sessionDataStack = some s ∧ s.Top = some sd := by
    intro sd
    unfold temporaryDescriptors.sessionData
    cases td.sessionDataStack <;> simp
  by_cases h : sessionLocalHit td dbID schemaName
  · have hh := h
    obtain ⟨s, sd, hs, htop, hn, hS⟩ := hh
    have hsd : td.sessionData = some sd := (hact sd).mpr ⟨s, hs, htop⟩
    obtain ⟨S, hS⟩ := Option.isSome_iff_exists.mp hS
    rw [getSchemaByName_of_hit td sd r txn dbID S schemaName hsd hn hS]
    refine ⟨by simp, by simp [h], fun d hd => ?_⟩
    have hd2 : SchemaDescriptor.mk sd.temporarySchemaName S dbID = d := Option.some.inj hd
    rw [← hd2]
  · have hmiss := (sessionLocalMiss_iff_not_hit td dbID schemaName).mpr h
    rw [getSchemaByName_of_miss td r txn dbID schemaName hmiss]
    by_cases hc : (r txn td.codec dbID schemaName).1 = true ∧
        (r txn td.codec dbID schemaName).2.2 = none
    · rw [if_pos hc]
      refine ⟨by simp, by simp [hc], fun d hd => ?_⟩
      have hd2 : SchemaDescriptor.mk schemaName (r txn td.codec dbID schemaName).2.1 dbID = d :=
        Option.some.inj hd
      rw [← hd2]
    · rw [if_neg hc]
      refine ⟨by simp, by simp [h, hc], fun d hd => ?_⟩
      exact Option.noConfusion hd

/-- Witness for C14: on the stack holding the frame that maps 7 to 1500088,
with a lookup that finds nothing, the frame's temporary-schema name in database
7 yields a descriptor with parent 7 and no error, and in database 8 yields no
descriptor. -/
theorem getSchemaByName_descriptor_iff_witness :
    ((tdOf frame7).getSchemaByName lookupNothing 0 7 "pg_temp_1_1").2.1 ≠ none ∧
    (SchemaDescriptor.mk "pg_temp_1_1" 1500088 7).parentDatabaseID = 7 ∧
    ¬ ((tdOf frame7).getSchemaByName lookupNothing 0 8 "pg_temp_1_1").2.1 ≠ none := by
  have h7 := getSchemaByName_descriptor_iff (tdOf frame7) lookupNothing 0 7 "pg_temp_1_1"
  have h8 := getSchemaByName_descriptor_iff (tdOf frame7) lookupNothing 0 8 "pg_temp_1_1"
  refine ⟨h7.2.1.mpr (Or.inl ⟨Stack.mk [frame7], frame7, rfl, rfl, Or.inr rfl, rfl⟩),
    h7.2.2 (SchemaDescriptor.mk "pg_temp_1_1" 1500088 7) (by decide), fun hd => ?_⟩
  rcases h8.2.1.mp hd with ⟨s, sd, hs, htop, -, hm⟩ | ⟨hf, -⟩
  · have hs2 : Stack.mk [frame7] = s := Option.some.inj hs
    subst hs2
    have hsd2 : frame7 = sd := Option.some.inj htop
    subst hsd2
    exact Bool.noConfusion hm
  · exact Bool.noConfusion hf

/-- C15: neither `getSchemaByName` nor `getSchemaByID` mutates any state: on
every path the receiver after the call, with its codec, its session stack and
every frame of it, is the receiver before the call; the results of the
state-passing forms are those of the methods. -/
theorem resolvers_leave_state_unchanged (td : temporaryDescriptors) (r : Resolver)
    (txn : Txn) (dbID : ID) (schemaName : String) (visitOrder : List Nat) (schemaID : ID) :
    (td.getSchemaByNameSt r txn dbID schemaName).2 = td ∧
    (td.getSchemaByNameSt r txn dbID schemaName).2.sessionDataStack = td.sessionDataStack ∧
    (td.getSchemaByNameSt r txn dbID schemaName).2.codec = td.codec ∧
    (td.getSchemaByNameSt r txn dbID schemaName).1 = td.getSchemaByName r txn dbID schemaName ∧
    (td.getSchemaByIDSt visitOrder schemaID).2 = td ∧
    (td.getSchemaByIDSt visitOrder schemaID).2.sessionDataStack = td.sessionDataStack ∧
    (td.getSchemaByIDSt visitOrder schemaID).2.codec = td.codec ∧
    (td.getSchemaByIDSt visitOrder schemaID).1 = td.getSchemaByID visitOrder schemaID := by
  have hst : td.sessionDataSt = (td.sessionData, td) := by
    unfold temporaryDescriptors.sessionDataSt temporaryDescriptors.sessionData
    cases td.sessionDataStack <;> rfl
  have hname : td.getSchemaByNameSt r txn dbID schemaName
      = (td.getSchemaByName r txn dbID schemaName, td) := by
    cases hsd : td.sessionData with
    | none =>
      simp only [temporaryDescriptors.getSchemaByNameSt, temporaryDescriptors.getSchemaByName,
        hst, hsd]
      generalize r txn td.codec dbID schemaName = p
      obtain ⟨found, id, err⟩ := p
      cases found <;> cases err <;> rfl
    | some sd =>
      simp only [temporaryDescriptors.getSchemaByNameSt, temporaryDescriptors.getSchemaByName,
        hst, hsd]
      generalize r txn td.codec dbID schemaName = p
      obtain ⟨found, id, err⟩ := p
      split
      · rcases hg : sd.GetTemporarySchemaIDForDb dbID with ⟨sid, b⟩
        cases b
        · cases found <;> cases err <;> rfl
        · rfl
      · cases found <;> cases err <;> rfl
  have hid : td.getSchemaByIDSt visitOrder schemaID
      = (td.getSchemaByID visitOrder schemaID, td) := by
    unfold temporaryDescriptors.getSchemaByIDSt temporaryDescriptors.getSchemaByID
    rw [hst]
    cases hsd : td.sessionData with
    | none => rfl
    | some sd =>
      simp only []
      rcases hg : sd.MaybeGetDatabaseForTemporarySchemaID visitOrder schemaID with ⟨db, b⟩
      cases b <;> rfl
  rw [hname, hid]
  exact ⟨rfl, rfl, rfl, rfl, rfl, rfl, rfl, rfl⟩

end descs
